import Mathlib

/-!
Verification of the bounce service client (`src/global/bounce.c`): a shallow
embedding of `vbounce_append`, `vbounce_one` and `bounce_flush`.

Each function is modelled as a pure function from an environment (the
process-wide `var_soft_bounce` flag, the configured service names, and the
status that each downstream service call would return) and the call arguments
to a pair of the returned status and the ordered list of external effects the
call performs (diagnostics and service invocations).  The variadic
`fmt, ap` reason arguments are modelled as the single rendered reason text
`why`, matching the fact that the code renders them with `vstring_vsprintf`
before any dispatch decision.
-/

namespace Bounce

/-- The request flag bits tested by `bounce.c`: `DEL_REQ_FLAG_VERIFY`,
`DEL_REQ_FLAG_EXPAND`, `DEL_REQ_FLAG_RECORD` and `BOUNCE_FLAG_CLEAN`. -/
structure Flags where
  verify : Bool
  expand : Bool
  record : Bool
  clean : Bool
deriving DecidableEq, Repr

/-- The environment of one dispatch call: the read-only configuration
(`var_soft_bounce`, `var_bounce_service`, `var_defer_service`,
`var_trace_service`) together with the status each downstream call site
would report.  Within one call every call site is reached at most once. -/
structure Env where
  soft_bounce : Bool
  bounce_service : String
  defer_service : String
  trace_service : String
  verify_status : Int
  trace_probe_status : Int
  primary_status : Int
  mirror_status : Int
  defer_status : Int
  flush_status : Int
deriving DecidableEq, Repr

/-- Modelled from the spec: the fixed classification tag
`DEL_RCPT_STAT_BOUNCE` passed to the verification store.  Its numeric value
comes from a header that is not part of this snapshot; only its identity
matters here, so it is an opaque one-constructor type. -/
inductive DelRcptStat where
  | bounce
deriving DecidableEq, Repr

/-- One external effect of a dispatch call, in program order:
`warn` is `msg_warn`, `verifyAppend` is `vverify_append`, `traceProbe` is
the `vtrace_append` call on the EXPAND path, `cmdAppend`, `cmdOne` and
`cmdFlush` are the three `mail_command_client` requests, `traceMirror` is
the `trace_append` RECORD mirror, `logAdhoc` is `log_adhoc`, `deferAppend`
is `defer_append`, and `msgInfo` is `msg_info`. -/
inductive Effect where
  | warn (text : String)
  | verifyAppend (id : String) (orig_rcpt : Option String)
      (recipient relay dsn : String) (entry : Int) (how : String)
      (stat : DelRcptStat) (reason : String)
  | traceProbe (flags : Flags) (id : String) (orig_rcpt : Option String)
      (recipient relay dsn : String) (entry : Int) (how : String)
      (reason : String)
  | cmdAppend (service : String) (flags : Flags) (id orig_rcpt recipient : String)
      (offset : Int) (dsn action reason : String)
  | cmdOne (service : String) (flags : Flags)
      (queue id encoding sender orig_rcpt recipient : String) (offset : Int)
      (dsn action reason : String)
  | cmdFlush (service : String) (flags : Flags)
      (queue id encoding sender : String)
  | traceMirror (flags : Flags) (id orig_rcpt recipient relay dsn : String)
      (entry : Int) (action reason : String)
  | logAdhoc (id orig_rcpt recipient relay dsn : String) (entry : Int)
      (stat reason : String)
  | deferAppend (flags : Flags) (id orig_rcpt recipient : String) (offset : Int)
      (relay dsn : String) (entry : Int) (reason : String)
  | msgInfo (text : String)
deriving DecidableEq, Repr

/-- The C test `*dsn == '5'` on the first byte of the candidate code. -/
def dsnClass5 (s : String) : Bool :=
  s.data.head? == some '5'

/-- Split a character list at every dot, the components in order. -/
def splitDots : List Char → List (List Char)
  | [] => [[]]
  | c :: cs =>
    if c = '.' then [] :: splitDots cs
    else
      match splitDots cs with
      | [] => [[c]]
      | g :: gs => (c :: g) :: gs

/-- Modelled from the spec: `dsn_valid` lives in `dsn_util.c`, which is not
part of this snapshot.  The spec describes it as checking that the candidate
"is syntactically a three-component dotted code" of the RFC 3463 shape
`class.subject.detail` (one class digit, one to three digits each for
subject and detail). -/
def dsn_valid (s : String) : Bool :=
  match splitDots s.data with
  | [cl, subj, det] =>
    cl.length == 1 && cl.all Char.isDigit &&
      decide (1 ≤ subj.length ∧ subj.length ≤ 3) && subj.all Char.isDigit &&
      decide (1 ≤ det.length ∧ det.length ≤ 3) && det.all Char.isDigit
  | _ => false

/-- The sanity check shared by `vbounce_append` and `vbounce_one`: when the
code is not class `5` or fails `dsn_valid`, warn and substitute `5.0.0`. -/
def sanitizeDsn (who : String) (dsn : String) : String × List Effect :=
  if !dsnClass5 dsn || !dsn_valid dsn then
    ("5.0.0", [Effect.warn (who ++ ": ignoring dsn code " ++ dsn)])
  else
    (dsn, [])

/-- The C statement `my_dsn[0] = '4'`: overwrite the class digit with `4`. -/
def setClass4 (s : String) : String :=
  String.mk ('4' :: s.data.tail)

/-- The "Normal mail delivery" else-block of `vbounce_append`
(bounce.c lines 258-300): primary append request, optional RECORD mirror,
then either the adhoc log line on success or the defer fallback. -/
def bounce_append_normal (env : Env) (flags : Flags) (id : String)
    (orig_rcpt : Option String) (recipient : String) (offset : Int)
    (relay dsn : String) (entry : Int) (why : String) : Int × List Effect :=
  let orcpt := orig_rcpt.getD ""
  let action := if env.soft_bounce then "delayed" else "failed"
  let log_status := if env.soft_bounce then "SOFTBOUNCE" else "bounced"
  let my_dsn := if env.soft_bounce then setClass4 dsn else dsn
  let service := if env.soft_bounce then env.defer_service else env.bounce_service
  let primaryFx : List Effect :=
    [Effect.cmdAppend service flags id orcpt recipient offset my_dsn action why]
  let mirrorFx : List Effect :=
    if env.primary_status == 0 && flags.record then
      [Effect.traceMirror flags id orcpt recipient relay my_dsn entry action why]
    else []
  if env.primary_status == 0 && (!flags.record || env.mirror_status == 0) then
    ((if env.soft_bounce then -1 else 0),
      primaryFx ++ mirrorFx ++
        [Effect.logAdhoc id orcpt recipient relay my_dsn entry log_status why])
  else if !flags.clean then
    (env.defer_status,
      primaryFx ++ mirrorFx ++
        [Effect.deferAppend flags id orcpt recipient offset relay
          (setClass4 my_dsn) entry
          (env.bounce_service ++ " or " ++ env.trace_service ++ " service failure")])
  else
    (-1, primaryFx ++ mirrorFx)

/-- `vbounce_append` (bounce.c lines 211-301): sanitize the DSN, then route
to the verify store, the trace store, the soft-bounce/CLEAN short-circuit,
or the normal append block, in that order. -/
def vbounce_append (env : Env) (flags : Flags) (id : String)
    (orig_rcpt : Option String) (recipient : String) (offset : Int)
    (relay dsn : String) (entry : Int) (why : String) : Int × List Effect :=
  let s := sanitizeDsn "bounce_append" dsn
  if flags.verify then
    (env.verify_status,
      s.2 ++ [Effect.verifyAppend id orig_rcpt recipient relay s.1 entry
        "undeliverable" DelRcptStat.bounce why])
  else if flags.expand then
    (env.trace_probe_status,
      s.2 ++ [Effect.traceProbe flags id orig_rcpt recipient relay s.1 entry
        "undeliverable" why])
  else if env.soft_bounce && flags.clean then
    (-1, s.2)
  else
    let r := bounce_append_normal env flags id orig_rcpt recipient offset relay
      s.1 entry why
    (r.1, s.2 ++ r.2)

/-- The "Normal mail delivery" else-block of `vbounce_one`
(bounce.c lines 400-442): the immediate one-shot send request, optional
RECORD mirror, then the adhoc log line on success or the defer fallback.
The `if (var_soft_bounce) my_dsn[0] = '4'` guard of the source is kept even
though the block is only reached with soft bounce disabled. -/
def bounce_one_normal (env : Env) (flags : Flags)
    (queue id encoding sender : String) (orig_rcpt : Option String)
    (recipient : String) (offset : Int) (relay dsn : String) (entry : Int)
    (why : String) : Int × List Effect :=
  let orcpt := orig_rcpt.getD ""
  let my_dsn := if env.soft_bounce then setClass4 dsn else dsn
  let primaryFx : List Effect :=
    [Effect.cmdOne env.bounce_service flags queue id encoding sender orcpt
      recipient offset my_dsn "failed" why]
  let mirrorFx : List Effect :=
    if env.primary_status == 0 && flags.record then
      [Effect.traceMirror flags id orcpt recipient relay my_dsn entry "failed" why]
    else []
  if env.primary_status == 0 && (!flags.record || env.mirror_status == 0) then
    (0, primaryFx ++ mirrorFx ++
      [Effect.logAdhoc id orcpt recipient relay my_dsn entry "bounced" why])
  else if !flags.clean then
    (env.defer_status,
      primaryFx ++ mirrorFx ++
        [Effect.deferAppend flags id orcpt recipient offset relay
          (setClass4 my_dsn) entry
          (env.bounce_service ++ " or " ++ env.trace_service ++ " service failure")])
  else
    (-1, primaryFx ++ mirrorFx)

/-- `vbounce_one` (bounce.c lines 352-443): sanitize the DSN, then route to
the verify store, the trace store, the soft-bounce delegation to
`vbounce_append`, or the immediate one-shot block, in that order. -/
def vbounce_one (env : Env) (flags : Flags) (queue id encoding sender : String)
    (orig_rcpt : Option String) (recipient : String) (offset : Int)
    (relay dsn : String) (entry : Int) (why : String) : Int × List Effect :=
  let s := sanitizeDsn "bounce_one" dsn
  if flags.verify then
    (env.verify_status,
      s.2 ++ [Effect.verifyAppend id orig_rcpt recipient relay s.1 entry
        "undeliverable" DelRcptStat.bounce why])
  else if flags.expand then
    (env.trace_probe_status,
      s.2 ++ [Effect.traceProbe flags id orig_rcpt recipient relay s.1 entry
        "undeliverable" why])
  else if env.soft_bounce then
    let r := vbounce_append env flags id orig_rcpt recipient offset relay
      s.1 entry why
    (r.1, s.2 ++ r.2)
  else
    let r := bounce_one_normal env flags queue id encoding sender orig_rcpt
      recipient offset relay s.1 entry why
    (r.1, s.2 ++ r.2)

/-- `bounce_flush` (bounce.c lines 305-330): fail outright under soft
bounce, otherwise issue the flush request; on failure log the deferred
diagnostic exactly when `BOUNCE_FLAG_CLEAN` is unset. -/
def bounce_flush (env : Env) (flags : Flags)
    (queue id encoding sender : String) : Int × List Effect :=
  if env.soft_bounce then
    (-1, [])
  else
    let cmd := Effect.cmdFlush env.bounce_service flags queue id encoding sender
    if env.flush_status == 0 then
      (0, [cmd])
    else if !flags.clean then
      (-1, [cmd, Effect.msgInfo (id ++ ": status=deferred (bounce failed)")])
    else
      (-1, [cmd])

/-- `bounce_append` (bounce.c lines 194-207) renders its variadic arguments
and calls `vbounce_append`; with the reason already rendered it is the same
function. -/
def bounce_append (env : Env) (flags : Flags) (id : String)
    (orig_rcpt : Option String) (recipient : String) (offset : Int)
    (relay dsn : String) (entry : Int) (why : String) : Int × List Effect :=
  vbounce_append env flags id orig_rcpt recipient offset relay dsn entry why

/-- `bounce_one` (bounce.c lines 334-348) renders its variadic arguments and
calls `vbounce_one`. -/
def bounce_one (env : Env) (flags : Flags) (queue id encoding sender : String)
    (orig_rcpt : Option String) (recipient : String) (offset : Int)
    (relay dsn : String) (entry : Int) (why : String) : Int × List Effect :=
  vbounce_one env flags queue id encoding sender orig_rcpt recipient offset
    relay dsn entry why

/-- An effect that invokes a downstream store (any peer-service request, as
opposed to a purely diagnostic `msg_warn`, `log_adhoc` or `msg_info`). -/
def Effect.isStoreCall : Effect → Bool
  | .warn _ => false
  | .logAdhoc _ _ _ _ _ _ _ _ => false
  | .msgInfo _ => false
  | _ => true

/-- An effect that is a primary action request (`BOUNCE_CMD_APPEND` or
`BOUNCE_CMD_ONE`). -/
def Effect.isPrimary : Effect → Bool
  | .cmdAppend _ _ _ _ _ _ _ _ _ => true
  | .cmdOne _ _ _ _ _ _ _ _ _ _ _ _ => true
  | _ => false

/-- An effect that is the RECORD trace mirror (`trace_append`). -/
def Effect.isMirror : Effect → Bool
  | .traceMirror _ _ _ _ _ _ _ _ _ => true
  | _ => false

/-- An effect that is the defer fallback (`defer_append`). -/
def Effect.isDefer : Effect → Bool
  | .deferAppend _ _ _ _ _ _ _ _ _ => true
  | _ => false

/-- An effect that is the immediate one-shot send request
(`BOUNCE_CMD_ONE`). -/
def Effect.isCmdOne : Effect → Bool
  | .cmdOne _ _ _ _ _ _ _ _ _ _ _ _ => true
  | _ => false

/-- An effect that is an adhoc log emission (`log_adhoc`). -/
def Effect.isLogAdhoc : Effect → Bool
  | .logAdhoc _ _ _ _ _ _ _ _ => true
  | _ => false

/-- An effect that is an operator diagnostic via `msg_info`. -/
def Effect.isMsgInfo : Effect → Bool
  | .msgInfo _ => true
  | _ => false

/-- An effect that is an append request (`BOUNCE_CMD_APPEND`) addressed to
the named service. -/
def Effect.isAppendTo (svc : String) : Effect → Bool
  | .cmdAppend service _ _ _ _ _ _ _ _ => service == svc
  | _ => false

/-- A mirror or fallback side action, for the ordering property. -/
def sideAction (e : Effect) : Bool :=
  e.isMirror || e.isDefer

/-- Every prefix of the trace that contains a mirror or defer side action
already contains a primary action: the primary request strictly precedes
any mirror or fallback. -/
def primaryBeforeSideActions (t : List Effect) : Prop :=
  ∀ n : Nat, (t.take n).any sideAction = true →
    (t.take n).any Effect.isPrimary = true

/-- The ordering and exclusivity properties of one normal-path trace: the
primary request precedes every mirror or defer action, a mirror occurs only
when the primary succeeded with RECORD set, a defer fallback occurs only
when the primary-and-requested-mirror conjunction failed with CLEAN unset,
and mirror and defer cannot both occur when RECORD is unset. -/
def C3Props (env : Env) (flags : Flags) (t : List Effect) : Prop :=
  primaryBeforeSideActions t ∧
  (t.any Effect.isMirror = true →
    env.primary_status = 0 ∧ flags.record = true) ∧
  (t.any Effect.isDefer = true →
    (env.primary_status == 0 &&
      (!flags.record || env.mirror_status == 0)) = false ∧
    flags.clean = false) ∧
  (flags.record = false →
    ¬(t.any Effect.isMirror = true ∧ t.any Effect.isDefer = true))

theorem sanitizeDsn_bad (who d : String)
    (h : dsnClass5 d = false ∨ dsn_valid d = false) :
    sanitizeDsn who d =
      ("5.0.0", [Effect.warn (who ++ ": ignoring dsn code " ++ d)]) := by
  unfold sanitizeDsn
  rcases h with h | h <;> simp [h]

theorem sanitizeDsn_good (who d : String) (h5 : dsnClass5 d = true)
    (hv : dsn_valid d = true) : sanitizeDsn who d = (d, []) := by
  unfold sanitizeDsn
  simp [h5, hv]

theorem dsnClass5_canonical : dsnClass5 "5.0.0" = true := by decide

theorem dsn_valid_canonical : dsn_valid "5.0.0" = true := by decide

theorem sanitizeDsn_fst_class5 (who d : String) :
    dsnClass5 (sanitizeDsn who d).1 = true := by
  unfold sanitizeDsn
  split
  · exact dsnClass5_canonical
  · rename_i h
    show dsnClass5 d = true
    cases hc : dsnClass5 d
    · simp [hc] at h
    · rfl

theorem sanitizeDsn_fst_valid (who d : String) :
    dsn_valid (sanitizeDsn who d).1 = true := by
  unfold sanitizeDsn
  split
  · exact dsn_valid_canonical
  · rename_i h
    show dsn_valid d = true
    cases hv : dsn_valid d
    · simp [hv] at h
    · rfl

theorem sanitizeDsn_idem (who2 who1 d : String) :
    sanitizeDsn who2 (sanitizeDsn who1 d).1 = ((sanitizeDsn who1 d).1, []) :=
  sanitizeDsn_good who2 _ (sanitizeDsn_fst_class5 who1 d)
    (sanitizeDsn_fst_valid who1 d)

theorem sanitizeDsn_snd_any (who d : String) (p : Effect → Bool)
    (hp : ∀ t, p (Effect.warn t) = false) :
    (sanitizeDsn who d).2.any p = false := by
  unfold sanitizeDsn
  split <;> simp [hp]

theorem sanitizeDsn_snd_filter (who d : String) (p : Effect → Bool)
    (hp : ∀ t, p (Effect.warn t) = false) :
    (sanitizeDsn who d).2.filter p = [] := by
  unfold sanitizeDsn
  split <;> simp [hp]

theorem vbounce_append_resanitize (env : Env) (flags : Flags)
    (id : String) (orig_rcpt : Option String) (recipient : String)
    (offset : Int) (relay d : String) (entry : Int) (why : String) :
    vbounce_append env flags id orig_rcpt recipient offset relay d entry why =
      ((vbounce_append env flags id orig_rcpt recipient offset relay
          (sanitizeDsn "bounce_append" d).1 entry why).1,
       (sanitizeDsn "bounce_append" d).2 ++
         (vbounce_append env flags id orig_rcpt recipient offset relay
           (sanitizeDsn "bounce_append" d).1 entry why).2) := by
  conv_lhs => unfold vbounce_append
  conv_rhs => unfold vbounce_append
  rw [sanitizeDsn_idem]
  split_ifs <;> simp



theorem vbounce_one_resanitize (env : Env) (flags : Flags)
    (queue id encoding sender : String) (orig_rcpt : Option String)
    (recipient : String) (offset : Int) (relay d : String) (entry : Int)
    (why : String) :
    vbounce_one env flags queue id encoding sender orig_rcpt recipient offset
        relay d entry why =
      ((vbounce_one env flags queue id encoding sender orig_rcpt recipient
          offset relay (sanitizeDsn "bounce_one" d).1 entry why).1,
       (sanitizeDsn "bounce_one" d).2 ++
         (vbounce_one env flags queue id encoding sender orig_rcpt recipient
           offset relay (sanitizeDsn "bounce_one" d).1 entry why).2) := by
  conv_lhs => unfold vbounce_one
  conv_rhs => unfold vbounce_one
  rw [sanitizeDsn_idem]
  split_ifs <;> simp

/-- C1: for both `vbounce_append` and `vbounce_one`, a supplied dsn whose
class digit is not `5` or which fails `dsn_valid` is replaced by `5.0.0`
for all further processing: the call behaves exactly like the same call
with dsn `5.0.0`, except that a diagnostic warning is emitted first; in
particular the call is never rejected for this reason. -/
theorem c1_invalid_dsn_sanitized_to_500 (env : Env) (flags : Flags)
    (queue id encoding sender : String) (orig_rcpt : Option String)
    (recipient : String) (offset : Int) (relay d : String) (entry : Int)
    (why : String) (h : dsnClass5 d = false ∨ dsn_valid d = false) :
    (vbounce_append env flags id orig_rcpt recipient offset relay d entry why =
      ((vbounce_append env flags id orig_rcpt recipient offset relay "5.0.0"
          entry why).1,
       Effect.warn ("bounce_append: ignoring dsn code " ++ d) ::
         (vbounce_append env flags id orig_rcpt recipient offset relay "5.0.0"
           entry why).2)) ∧
    (vbounce_one env flags queue id encoding sender orig_rcpt recipient offset
        relay d entry why =
      ((vbounce_one env flags queue id encoding sender orig_rcpt recipient
          offset relay "5.0.0" entry why).1,
       Effect.warn ("bounce_one: ignoring dsn code " ++ d) ::
         (vbounce_one env flags queue id encoding sender orig_rcpt recipient
           offset relay "5.0.0" entry why).2)) := by
  constructor
  · rw [vbounce_append_resanitize env flags id orig_rcpt recipient offset relay
      d entry why, sanitizeDsn_bad _ _ h]
    simp
  · rw [vbounce_one_resanitize env flags queue id encoding sender orig_rcpt
      recipient offset relay d entry why, sanitizeDsn_bad _ _ h]
    simp

/-- Witness for C1 at the structurally valid but class-9 code `9.9.9`. -/
theorem c1_witness :
    (dsnClass5 "9.9.9" = false ∨ dsn_valid "9.9.9" = false) ∧
    vbounce_append
        { soft_bounce := false, bounce_service := "bounce",
          defer_service := "defer", trace_service := "trace",
          verify_status := 1, trace_probe_status := 2, primary_status := 0,
          mirror_status := 0, defer_status := 3, flush_status := 0 }
        { verify := false, expand := false, record := false, clean := false }
        "id" (some "orig") "bob" 3 "relay" "9.9.9" 11 "why" =
      ((vbounce_append
          { soft_bounce := false, bounce_service := "bounce",
            defer_service := "defer", trace_service := "trace",
            verify_status := 1, trace_probe_status := 2, primary_status := 0,
            mirror_status := 0, defer_status := 3, flush_status := 0 }
          { verify := false, expand := false, record := false, clean := false }
          "id" (some "orig") "bob" 3 "relay" "5.0.0" 11 "why").1,
       Effect.warn ("bounce_append: ignoring dsn code " ++ "9.9.9") ::
         (vbounce_append
           { soft_bounce := false, bounce_service := "bounce",
             defer_service := "defer", trace_service := "trace",
             verify_status := 1, trace_probe_status := 2, primary_status := 0,
             mirror_status := 0, defer_status := 3, flush_status := 0 }
           { verify := false, expand := false, record := false, clean := false }
           "id" (some "orig") "bob" 3 "relay" "5.0.0" 11 "why").2) :=
  ⟨by decide,
   (c1_invalid_dsn_sanitized_to_500 _ _ "q" "id" "enc" "sender" (some "orig")
     "bob" 3 "relay" "9.9.9" 11 "why" (by decide)).1⟩



theorem storeCall_warn (t : String) :
    Effect.isStoreCall (Effect.warn t) = false := rfl

/-- C2: with `DEL_REQ_FLAG_VERIFY` set, both `vbounce_append` and
`vbounce_one` invoke only the verification store (so in particular neither
the bounce-log store nor the defer store) and return its status, regardless
of all other flags and of soft-bounce mode; the EXPAND path is never taken
even when that flag is also set. -/
theorem c2_verify_exclusive (env : Env) (flags : Flags)
    (queue id encoding sender : String) (orig_rcpt : Option String)
    (recipient : String) (offset : Int) (relay d : String) (entry : Int)
    (why : String) (h : flags.verify = true) :
    ((vbounce_append env flags id orig_rcpt recipient offset relay d entry
        why).1 = env.verify_status ∧
     (vbounce_append env flags id orig_rcpt recipient offset relay d entry
        why).2.filter Effect.isStoreCall =
       [Effect.verifyAppend id orig_rcpt recipient relay
         (sanitizeDsn "bounce_append" d).1 entry "undeliverable"
         DelRcptStat.bounce why]) ∧
    ((vbounce_one env flags queue id encoding sender orig_rcpt recipient
        offset relay d entry why).1 = env.verify_status ∧
     (vbounce_one env flags queue id encoding sender orig_rcpt recipient
        offset relay d entry why).2.filter Effect.isStoreCall =
       [Effect.verifyAppend id orig_rcpt recipient relay
         (sanitizeDsn "bounce_one" d).1 entry "undeliverable"
         DelRcptStat.bounce why]) := by
  constructor
  · unfold vbounce_append
    simp [h, List.filter_append,
      sanitizeDsn_snd_filter "bounce_append" d Effect.isStoreCall storeCall_warn,
      Effect.isStoreCall]
  · unfold vbounce_one
    simp [h, List.filter_append,
      sanitizeDsn_snd_filter "bounce_one" d Effect.isStoreCall storeCall_warn,
      Effect.isStoreCall]

/-- Witness for C2 with both probe flags set, RECORD and CLEAN set, and
soft-bounce mode enabled. -/
theorem c2_witness :
    ((vbounce_append
        { soft_bounce := true, bounce_service := "bounce",
          defer_service := "defer", trace_service := "trace",
          verify_status := 7, trace_probe_status := 2, primary_status := 0,
          mirror_status := 0, defer_status := 3, flush_status := 0 }
        { verify := true, expand := true, record := true, clean := true }
        "id" (some "orig") "bob" 3 "relay" "5.1.1" 11 "why").1 = 7 ∧
     (vbounce_append
        { soft_bounce := true, bounce_service := "bounce",
          defer_service := "defer", trace_service := "trace",
          verify_status := 7, trace_probe_status := 2, primary_status := 0,
          mirror_status := 0, defer_status := 3, flush_status := 0 }
        { verify := true, expand := true, record := true, clean := true }
        "id" (some "orig") "bob" 3 "relay" "5.1.1" 11 "why").2.filter
        Effect.isStoreCall =
       [Effect.verifyAppend "id" (some "orig") "bob" "relay"
         (sanitizeDsn "bounce_append" "5.1.1").1 11 "undeliverable"
         DelRcptStat.bounce "why"]) ∧
    ((vbounce_one
        { soft_bounce := true, bounce_service := "bounce",
          defer_service := "defer", trace_service := "trace",
          verify_status := 7, trace_probe_status := 2, primary_status := 0,
          mirror_status := 0, defer_status := 3, flush_status := 0 }
        { verify := true, expand := true, record := true, clean := true }
        "q" "id" "enc" "sender" (some "orig") "bob" 3 "relay" "5.1.1" 11
        "why").1 = 7 ∧
     (vbounce_one
        { soft_bounce := true, bounce_service := "bounce",
          defer_service := "defer", trace_service := "trace",
          verify_status := 7, trace_probe_status := 2, primary_status := 0,
          mirror_status := 0, defer_status := 3, flush_status := 0 }
        { verify := true, expand := true, record := true, clean := true }
        "q" "id" "enc" "sender" (some "orig") "bob" 3 "relay" "5.1.1" 11
        "why").2.filter Effect.isStoreCall =
       [Effect.verifyAppend "id" (some "orig") "bob" "relay"
         (sanitizeDsn "bounce_one" "5.1.1").1 11 "undeliverable"
         DelRcptStat.bounce "why"]) :=
  c2_verify_exclusive _ _ "q" "id" "enc" "sender" (some "orig") "bob" 3
    "relay" "5.1.1" 11 "why" rfl



theorem pbsa_shape (pre rest : List Effect) (p : Effect)
    (hpre : ∀ e ∈ pre, sideAction e = false) (hp : Effect.isPrimary p = true) :
    primaryBeforeSideActions (pre ++ p :: rest) := by
  intro n hn
  rw [List.take_append_eq_append_take, List.any_append] at hn ⊢
  by_cases hle : n ≤ pre.length
  · exfalso
    have h0 : n - pre.length = 0 := Nat.sub_eq_zero_of_le hle
    rw [h0] at hn
    simp only [List.take_zero, List.any_nil, Bool.or_false] at hn
    obtain ⟨e, he, hside⟩ := List.any_eq_true.mp hn
    rw [hpre e (List.take_subset _ _ he)] at hside
    exact Bool.false_ne_true hside
  · obtain ⟨k, hk⟩ : ∃ k, n - pre.length = k + 1 :=
      ⟨n - pre.length - 1, by omega⟩
    rw [hk, List.take_succ_cons]
    simp [hp]

theorem bounce_append_normal_snd (env : Env) (flags : Flags) (id : String)
    (orig_rcpt : Option String) (recipient : String) (offset : Int)
    (relay dsn : String) (entry : Int) (why : String) :
    (bounce_append_normal env flags id orig_rcpt recipient offset relay dsn
        entry why).2 =
      [Effect.cmdAppend
        (if env.soft_bounce then env.defer_service else env.bounce_service)
        flags id (orig_rcpt.getD "") recipient offset
        (if env.soft_bounce then setClass4 dsn else dsn)
        (if env.soft_bounce then "delayed" else "failed") why] ++
      (if env.primary_status == 0 && flags.record then
        [Effect.traceMirror flags id (orig_rcpt.getD "") recipient relay
          (if env.soft_bounce then setClass4 dsn else dsn) entry
          (if env.soft_bounce then "delayed" else "failed") why]
      else []) ++
      (if env.primary_status == 0 && (!flags.record || env.mirror_status == 0)
       then
        [Effect.logAdhoc id (orig_rcpt.getD "") recipient relay
          (if env.soft_bounce then setClass4 dsn else dsn) entry
          (if env.soft_bounce then "SOFTBOUNCE" else "bounced") why]
       else if !flags.clean then
        [Effect.deferAppend flags id (orig_rcpt.getD "") recipient offset relay
          (setClass4 (if env.soft_bounce then setClass4 dsn else dsn)) entry
          (env.bounce_service ++ " or " ++ env.trace_service ++
            " service failure")]
       else []) := by
  unfold bounce_append_normal
  split_ifs <;> simp_all

theorem bounce_one_normal_snd (env : Env) (flags : Flags)
    (queue id encoding sender : String) (orig_rcpt : Option String)
    (recipient : String) (offset : Int) (relay dsn : String) (entry : Int)
    (why : String) :
    (bounce_one_normal env flags queue id encoding sender orig_rcpt recipient
        offset relay dsn entry why).2 =
      [Effect.cmdOne env.bounce_service flags queue id encoding sender
        (orig_rcpt.getD "") recipient offset
        (if env.soft_bounce then setClass4 dsn else dsn) "failed" why] ++
      (if env.primary_status == 0 && flags.record then
        [Effect.traceMirror flags id (orig_rcpt.getD "") recipient relay
          (if env.soft_bounce then setClass4 dsn else dsn) entry "failed" why]
      else []) ++
      (if env.primary_status == 0 && (!flags.record || env.mirror_status == 0)
       then
        [Effect.logAdhoc id (orig_rcpt.getD "") recipient relay
          (if env.soft_bounce then setClass4 dsn else dsn) entry "bounced" why]
       else if !flags.clean then
        [Effect.deferAppend flags id (orig_rcpt.getD "") recipient offset relay
          (setClass4 (if env.soft_bounce then setClass4 dsn else dsn)) entry
          (env.bounce_service ++ " or " ++ env.trace_service ++
            " service failure")]
       else []) := by
  unfold bounce_one_normal
  split_ifs <;> simp_all

theorem C3Props_of_shape (env : Env) (flags : Flags) (t : List Effect)
    (p mfx lfx dfx : Effect) (hp : Effect.isPrimary p = true)
    (hpm : Effect.isMirror p = false) (hpd : Effect.isDefer p = false)
    (hm1 : Effect.isMirror mfx = true) (hm2 : Effect.isDefer mfx = false)
    (hl1 : Effect.isMirror lfx = false) (hl2 : Effect.isDefer lfx = false)
    (hd1 : Effect.isDefer dfx = true) (hd2 : Effect.isMirror dfx = false)
    (ht : t = [p] ++
      (if env.primary_status == 0 && flags.record then [mfx] else []) ++
      (if env.primary_status == 0 && (!flags.record || env.mirror_status == 0)
        then [lfx]
        else if !flags.clean then [dfx] else [])) :
    C3Props env flags t := by
  subst ht
  refine ⟨pbsa_shape [] _ p (by simp) hp, ?_, ?_, ?_⟩
  all_goals
    cases h1 : (env.primary_status == 0 && flags.record) <;>
    cases h2 : (env.primary_status == 0 &&
      (!flags.record || env.mirror_status == 0)) <;>
    cases h3 : flags.clean <;>
      simp only [h1, h2, h3, Bool.not_true, Bool.not_false, if_true,
        if_false] <;>
      simp_all [hpm, hpd, hm1, hm2, hl1, hl2, hd1, hd2]



theorem C3Props_prepend (env : Env) (flags : Flags) (pre t : List Effect)
    (hpre : ∀ e ∈ pre, sideAction e = false) (h : C3Props env flags t) :
    C3Props env flags (pre ++ t) := by
  obtain ⟨h1, h2, h3, h4⟩ := h
  have hside : ∀ n, (pre.take n).any sideAction = false := by
    intro n
    rw [List.any_eq_false]
    intro e he
    simp [hpre e (List.take_subset _ _ he)]
  have hmirrorFalse : pre.any Effect.isMirror = false := by
    rw [List.any_eq_false]
    intro e he
    have := hpre e he
    simp only [sideAction, Bool.or_eq_false_iff] at this
    simp [this.1]
  have hdeferFalse : pre.any Effect.isDefer = false := by
    rw [List.any_eq_false]
    intro e he
    have := hpre e he
    simp only [sideAction, Bool.or_eq_false_iff] at this
    simp [this.2]
  refine ⟨?_, ?_, ?_, ?_⟩
  · intro n hn
    rw [List.take_append_eq_append_take, List.any_append] at hn ⊢
    rw [hside n, Bool.false_or] at hn
    rw [h1 _ hn, Bool.or_true]
  · intro hmem
    rw [List.any_append, hmirrorFalse, Bool.false_or] at hmem
    exact h2 hmem
  · intro hmem
    rw [List.any_append, hdeferFalse, Bool.false_or] at hmem
    exact h3 hmem
  · intro hr hmem
    obtain ⟨hm, hd⟩ := hmem
    rw [List.any_append, hmirrorFalse, Bool.false_or] at hm
    rw [List.any_append, hdeferFalse, Bool.false_or] at hd
    exact h4 hr ⟨hm, hd⟩

theorem c3core_append (env : Env) (flags : Flags) (id : String)
    (orig_rcpt : Option String) (recipient : String) (offset : Int)
    (relay dsn : String) (entry : Int) (why : String) :
    C3Props env flags (bounce_append_normal env flags id orig_rcpt recipient
      offset relay dsn entry why).2 := by
  refine C3Props_of_shape env flags _ _ _ _ _ ?_ ?_ ?_ ?_ ?_ ?_ ?_ ?_ ?_
    (bounce_append_normal_snd env flags id orig_rcpt recipient offset
      relay dsn entry why) <;> rfl

theorem c3core_one (env : Env) (flags : Flags)
    (queue id encoding sender : String) (orig_rcpt : Option String)
    (recipient : String) (offset : Int) (relay dsn : String) (entry : Int)
    (why : String) :
    C3Props env flags (bounce_one_normal env flags queue id encoding sender
      orig_rcpt recipient offset relay dsn entry why).2 := by
  refine C3Props_of_shape env flags _ _ _ _ _ ?_ ?_ ?_ ?_ ?_ ?_ ?_ ?_ ?_
    (bounce_one_normal_snd env flags queue id encoding sender orig_rcpt
      recipient offset relay dsn entry why) <;> rfl



theorem sanitizeDsn_snd_sideFree (who d : String) :
    ∀ e ∈ (sanitizeDsn who d).2, sideAction e = false := by
  unfold sanitizeDsn
  split <;> intro e he <;>
    simp_all [sideAction, Effect.isMirror, Effect.isDefer]

theorem vbounce_append_normal_case (env : Env) (flags : Flags) (id : String)
    (orig_rcpt : Option String) (recipient : String) (offset : Int)
    (relay d : String) (entry : Int) (why : String)
    (hv : flags.verify = false) (he : flags.expand = false)
    (hsc : (env.soft_bounce && flags.clean) = false) :
    vbounce_append env flags id orig_rcpt recipient offset relay d entry why =
      ((bounce_append_normal env flags id orig_rcpt recipient offset relay
          (sanitizeDsn "bounce_append" d).1 entry why).1,
       (sanitizeDsn "bounce_append" d).2 ++
         (bounce_append_normal env flags id orig_rcpt recipient offset relay
           (sanitizeDsn "bounce_append" d).1 entry why).2) := by
  unfold vbounce_append
  simp [hv, he, hsc]

theorem vbounce_append_shortcircuit (env : Env) (flags : Flags) (id : String)
    (orig_rcpt : Option String) (recipient : String) (offset : Int)
    (relay d : String) (entry : Int) (why : String)
    (hv : flags.verify = false) (he : flags.expand = false)
    (hs : env.soft_bounce = true) (hc : flags.clean = true) :
    vbounce_append env flags id orig_rcpt recipient offset relay d entry why =
      (-1, (sanitizeDsn "bounce_append" d).2) := by
  unfold vbounce_append
  simp [hv, he, hs, hc]

theorem vbounce_one_soft_case (env : Env) (flags : Flags)
    (queue id encoding sender : String) (orig_rcpt : Option String)
    (recipient : String) (offset : Int) (relay d : String) (entry : Int)
    (why : String) (hv : flags.verify = false) (he : flags.expand = false)
    (hs : env.soft_bounce = true) :
    vbounce_one env flags queue id encoding sender orig_rcpt recipient offset
        relay d entry why =
      ((vbounce_append env flags id orig_rcpt recipient offset relay
          (sanitizeDsn "bounce_one" d).1 entry why).1,
       (sanitizeDsn "bounce_one" d).2 ++
         (vbounce_append env flags id orig_rcpt recipient offset relay
           (sanitizeDsn "bounce_one" d).1 entry why).2) := by
  unfold vbounce_one
  simp [hv, he, hs]

theorem vbounce_one_normal_case (env : Env) (flags : Flags)
    (queue id encoding sender : String) (orig_rcpt : Option String)
    (recipient : String) (offset : Int) (relay d : String) (entry : Int)
    (why : String) (hv : flags.verify = false) (he : flags.expand = false)
    (hs : env.soft_bounce = false) :
    vbounce_one env flags queue id encoding sender orig_rcpt recipient offset
        relay d entry why =
      ((bounce_one_normal env flags queue id encoding sender orig_rcpt
          recipient offset relay (sanitizeDsn "bounce_one" d).1 entry why).1,
       (sanitizeDsn "bounce_one" d).2 ++
         (bounce_one_normal env flags queue id encoding sender orig_rcpt
           recipient offset relay (sanitizeDsn "bounce_one" d).1 entry
           why).2) := by
  unfold vbounce_one
  simp [hv, he, hs]

/-- C3 counterexample: when the primary append succeeds, RECORD is set, the
trace mirror fails and CLEAN is unset, one `vbounce_append` call performs
both the trace mirror and the defer fallback, and the fallback runs even
though the primary action succeeded — so mirror and fallback are not
mutually exclusive, and the fallback does not happen only on primary
failure. -/
theorem c3_counterexample :
    let env : Env :=
      { soft_bounce := false, bounce_service := "bounce",
        defer_service := "defer", trace_service := "trace",
        verify_status := 1, trace_probe_status := 2, primary_status := 0,
        mirror_status := 1, defer_status := 3, flush_status := 0 }
    let flags : Flags :=
      { verify := false, expand := false, record := true, clean := false }
    let t := (vbounce_append env flags "id" (some "orig") "bob" 3 "relay"
      "5.1.1" 11 "why").2
    env.primary_status = 0 ∧ t.any Effect.isMirror = true ∧
      t.any Effect.isDefer = true := by
  decide

/-- C3 (amended): within one `vbounce_append` (normal path) or `vbounce_one`
(immediate-send path) call, the primary action completes before any mirror
or fallback action begins; the mirror is attempted only when the primary
succeeded with RECORD set; the defer fallback happens only when the
primary-and-requested-mirror conjunction failed and CLEAN is unset; mirror
and fallback are mutually exclusive whenever RECORD is unset (but both can
occur in one call when the primary succeeds and the requested mirror
fails). -/
theorem c3_primary_before_side_actions (env : Env) (flags : Flags)
    (queue id encoding sender : String) (orig_rcpt : Option String)
    (recipient : String) (offset : Int) (relay d : String) (entry : Int)
    (why : String) (hv : flags.verify = false) (he : flags.expand = false) :
    ((env.soft_bounce && flags.clean) = false →
      C3Props env flags (vbounce_append env flags id orig_rcpt recipient
        offset relay d entry why).2) ∧
    (env.soft_bounce = false →
      C3Props env flags (vbounce_one env flags queue id encoding sender
        orig_rcpt recipient offset relay d entry why).2) := by
  constructor
  · intro hsc
    rw [vbounce_append_normal_case env flags id orig_rcpt recipient offset
      relay d entry why hv he hsc]
    exact C3Props_prepend env flags _ _ (sanitizeDsn_snd_sideFree _ _)
      (c3core_append env flags id orig_rcpt recipient offset relay _ entry why)
  · intro hs
    rw [vbounce_one_normal_case env flags queue id encoding sender orig_rcpt
      recipient offset relay d entry why hv he hs]
    exact C3Props_prepend env flags _ _ (sanitizeDsn_snd_sideFree _ _)
      (c3core_one env flags queue id encoding sender orig_rcpt recipient
        offset relay _ entry why)

/-- Witness for the amended C3 at a concrete failing-mirror input. -/
theorem c3_witness :
    let env : Env :=
      { soft_bounce := false, bounce_service := "bounce",
        defer_service := "defer", trace_service := "trace",
        verify_status := 1, trace_probe_status := 2, primary_status := 0,
        mirror_status := 1, defer_status := 3, flush_status := 0 }
    let flags : Flags :=
      { verify := false, expand := false, record := true, clean := false }
    C3Props env flags (vbounce_append env flags "id" (some "orig") "bob" 3
      "relay" "5.1.1" 11 "why").2 ∧
    C3Props env flags (vbounce_one env flags "q" "id" "enc" "sender"
      (some "orig") "bob" 3 "relay" "5.1.1" 11 "why").2 :=
  ⟨(c3_primary_before_side_actions _ _ "q" "id" "enc" "sender" (some "orig")
      "bob" 3 "relay" "5.1.1" 11 "why" rfl rfl).1 rfl,
   (c3_primary_before_side_actions _ _ "q" "id" "enc" "sender" (some "orig")
      "bob" 3 "relay" "5.1.1" 11 "why" rfl rfl).2 rfl⟩



/-- C4 counterexample: with soft-bounce mode enabled and CLEAN unset, the
normal branch of the Append Path sends its primary append request to the
configured defer service, not to the bounce-log service. -/
theorem c4_counterexample :
    let env : Env :=
      { soft_bounce := true, bounce_service := "bounce",
        defer_service := "defer", trace_service := "trace",
        verify_status := 1, trace_probe_status := 2, primary_status := 0,
        mirror_status := 0, defer_status := 3, flush_status := 0 }
    let flags : Flags :=
      { verify := false, expand := false, record := false, clean := false }
    let t := (vbounce_append env flags "id" (some "orig") "bob" 3 "relay"
      "5.1.1" 11 "why").2
    t.any (Effect.isAppendTo "bounce") = false ∧
      t.any (Effect.isAppendTo "defer") = true := by
  decide

/-- C4 (amended): in the normal branch of the Append Path, the primary record
append is attempted with the append command against the per-message
bounce-log store when soft-bounce mode is disabled, and against the defer
service instead when soft-bounce mode is enabled. -/
theorem c4_append_primary_store (env : Env) (flags : Flags) (id : String)
    (orig_rcpt : Option String) (recipient : String) (offset : Int)
    (relay d : String) (entry : Int) (why : String)
    (hv : flags.verify = false) (he : flags.expand = false)
    (hsc : (env.soft_bounce && flags.clean) = false) :
    (vbounce_append env flags id orig_rcpt recipient offset relay d entry
        why).2.any
      (Effect.isAppendTo
        (if env.soft_bounce then env.defer_service else env.bounce_service)) =
      true := by
  rw [vbounce_append_normal_case env flags id orig_rcpt recipient offset relay
    d entry why hv he hsc]
  show ((sanitizeDsn "bounce_append" d).2 ++ _).any _ = true
  rw [List.any_append, sanitizeDsn_snd_any _ _ _ (fun _ => rfl), Bool.false_or,
    bounce_append_normal_snd]
  simp [Effect.isAppendTo]

/-- Witness for the amended C4 with soft-bounce disabled. -/
theorem c4_witness :
    let env : Env :=
      { soft_bounce := false, bounce_service := "bounce",
        defer_service := "defer", trace_service := "trace",
        verify_status := 1, trace_probe_status := 2, primary_status := 0,
        mirror_status := 0, defer_status := 3, flush_status := 0 }
    let flags : Flags :=
      { verify := false, expand := false, record := false, clean := false }
    (vbounce_append env flags "id" (some "orig") "bob" 3 "relay" "5.1.1" 11
        "why").2.any
      (Effect.isAppendTo
        (if env.soft_bounce then env.defer_service else env.bounce_service)) =
      true :=
  c4_append_primary_store _ _ "id" (some "orig") "bob" 3 "relay" "5.1.1" 11
    "why" rfl rfl rfl

/-- C5: with soft-bounce mode enabled and `BOUNCE_FLAG_CLEAN` set (and the
probe flags unset), `vbounce_append` returns failure immediately and
invokes no downstream store at all. -/
theorem c5_soft_clean_noop (env : Env) (flags : Flags) (id : String)
    (orig_rcpt : Option String) (recipient : String) (offset : Int)
    (relay d : String) (entry : Int) (why : String)
    (hv : flags.verify = false) (he : flags.expand = false)
    (hs : env.soft_bounce = true) (hc : flags.clean = true) :
    (vbounce_append env flags id orig_rcpt recipient offset relay d entry
        why).1 = -1 ∧
    (vbounce_append env flags id orig_rcpt recipient offset relay d entry
        why).2.filter Effect.isStoreCall = [] := by
  rw [vbounce_append_shortcircuit env flags id orig_rcpt recipient offset
    relay d entry why hv he hs hc]
  exact ⟨rfl, sanitizeDsn_snd_filter _ _ _ storeCall_warn⟩

/-- Witness for C5. -/
theorem c5_witness :
    (vbounce_append
        { soft_bounce := true, bounce_service := "bounce",
          defer_service := "defer", trace_service := "trace",
          verify_status := 1, trace_probe_status := 2, primary_status := 0,
          mirror_status := 0, defer_status := 3, flush_status := 0 }
        { verify := false, expand := false, record := true, clean := true }
        "id" (some "orig") "bob" 3 "relay" "5.1.1" 11 "why").1 = -1 ∧
    (vbounce_append
        { soft_bounce := true, bounce_service := "bounce",
          defer_service := "defer", trace_service := "trace",
          verify_status := 1, trace_probe_status := 2, primary_status := 0,
          mirror_status := 0, defer_status := 3, flush_status := 0 }
        { verify := false, expand := false, record := true, clean := true }
        "id" (some "orig") "bob" 3 "relay" "5.1.1" 11 "why").2.filter
      Effect.isStoreCall = [] :=
  c5_soft_clean_noop _ _ "id" (some "orig") "bob" 3 "relay" "5.1.1" 11 "why"
    rfl rfl rfl rfl



theorem sanitizeDsn_fst_who (who1 who2 d : String) :
    (sanitizeDsn who1 d).1 = (sanitizeDsn who2 d).1 := by
  unfold sanitizeDsn
  split <;> simp

theorem vbounce_append_no_cmdOne (env : Env) (flags : Flags) (id : String)
    (orig_rcpt : Option String) (recipient : String) (offset : Int)
    (relay d : String) (entry : Int) (why : String) :
    (vbounce_append env flags id orig_rcpt recipient offset relay d entry
        why).2.any Effect.isCmdOne = false := by
  unfold vbounce_append bounce_append_normal sanitizeDsn
  split_ifs <;> simp [Effect.isCmdOne]

/-- C6: with soft-bounce mode enabled (and the probe flags unset),
`vbounce_one` never issues the immediate one-shot send request; it returns
exactly the status that `vbounce_append` returns on the same arguments,
regardless of the CLEAN flag. -/
theorem c6_one_soft_delegates (env : Env) (flags : Flags)
    (queue id encoding sender : String) (orig_rcpt : Option String)
    (recipient : String) (offset : Int) (relay d : String) (entry : Int)
    (why : String) (hv : flags.verify = false) (he : flags.expand = false)
    (hs : env.soft_bounce = true) :
    (vbounce_one env flags queue id encoding sender orig_rcpt recipient offset
        relay d entry why).1 =
      (vbounce_append env flags id orig_rcpt recipient offset relay d entry
        why).1 ∧
    (vbounce_one env flags queue id encoding sender orig_rcpt recipient offset
        relay d entry why).2.any Effect.isCmdOne = false := by
  rw [vbounce_one_soft_case env flags queue id encoding sender orig_rcpt
    recipient offset relay d entry why hv he hs]
  constructor
  · show (vbounce_append env flags id orig_rcpt recipient offset relay
      (sanitizeDsn "bounce_one" d).1 entry why).1 = _
    conv_rhs => rw [vbounce_append_resanitize]
    rw [sanitizeDsn_fst_who "bounce_one" "bounce_append" d]
  · show ((sanitizeDsn "bounce_one" d).2 ++ _).any Effect.isCmdOne = false
    rw [List.any_append, sanitizeDsn_snd_any _ _ _ (fun _ => rfl),
      Bool.false_or, vbounce_append_no_cmdOne]

/-- Witness for C6 with CLEAN set. -/
theorem c6_witness :
    (vbounce_one
        { soft_bounce := true, bounce_service := "bounce",
          defer_service := "defer", trace_service := "trace",
          verify_status := 1, trace_probe_status := 2, primary_status := 1,
          mirror_status := 0, defer_status := 3, flush_status := 0 }
        { verify := false, expand := false, record := false, clean := true }
        "q" "id" "enc" "sender" (some "orig") "bob" 3 "relay" "5.1.1" 11
        "why").1 =
      (vbounce_append
        { soft_bounce := true, bounce_service := "bounce",
          defer_service := "defer", trace_service := "trace",
          verify_status := 1, trace_probe_status := 2, primary_status := 1,
          mirror_status := 0, defer_status := 3, flush_status := 0 }
        { verify := false, expand := false, record := false, clean := true }
        "id" (some "orig") "bob" 3 "relay" "5.1.1" 11 "why").1 ∧
    (vbounce_one
        { soft_bounce := true, bounce_service := "bounce",
          defer_service := "defer", trace_service := "trace",
          verify_status := 1, trace_probe_status := 2, primary_status := 1,
          mirror_status := 0, defer_status := 3, flush_status := 0 }
        { verify := false, expand := false, record := false, clean := true }
        "q" "id" "enc" "sender" (some "orig") "bob" 3 "relay" "5.1.1" 11
        "why").2.any Effect.isCmdOne = false :=
  c6_one_soft_delegates _ _ "q" "id" "enc" "sender" (some "orig") "bob" 3
    "relay" "5.1.1" 11 "why" rfl rfl rfl



theorem setClass4_idem (s : String) : setClass4 (setClass4 s) = setClass4 s :=
  rfl

/-- C7: on the Append Path with soft-bounce mode enabled, when the primary
append succeeds (and the trace mirror succeeds whenever RECORD is set), the
call still returns the "not finally resolved" status `-1`, and the single
adhoc log emission carries status `SOFTBOUNCE` and the working DSN with its
class digit rewritten to `4`. -/
theorem c7_softbounce_success_defers (env : Env) (flags : Flags) (id : String)
    (orig_rcpt : Option String) (recipient : String) (offset : Int)
    (relay d : String) (entry : Int) (why : String)
    (hv : flags.verify = false) (he : flags.expand = false)
    (hc : flags.clean = false) (hs : env.soft_bounce = true)
    (hp : env.primary_status = 0)
    (hm : flags.record = true → env.mirror_status = 0) :
    (vbounce_append env flags id orig_rcpt recipient offset relay d entry
        why).1 = -1 ∧
    (vbounce_append env flags id orig_rcpt recipient offset relay d entry
        why).2.filter Effect.isLogAdhoc =
      [Effect.logAdhoc id (orig_rcpt.getD "") recipient relay
        (setClass4 (sanitizeDsn "bounce_append" d).1) entry "SOFTBOUNCE"
        why] := by
  rw [vbounce_append_normal_case env flags id orig_rcpt recipient offset relay
    d entry why hv he (by simp [hc])]
  have hok : (env.primary_status == 0 &&
      (!flags.record || env.mirror_status == 0)) = true := by
    cases hr : flags.record
    · simp [hp]
    · simp [hp, hm hr]
  unfold bounce_append_normal
  rw [hok]
  cases hmf : (env.primary_status == 0 && flags.record) <;>
    simp [hs, hmf, List.filter_append,
      sanitizeDsn_snd_filter "bounce_append" d Effect.isLogAdhoc
        (fun _ => rfl),
      Effect.isLogAdhoc]

/-- Witness for C7 with RECORD set and both services succeeding. -/
theorem c7_witness :
    (vbounce_append
        { soft_bounce := true, bounce_service := "bounce",
          defer_service := "defer", trace_service := "trace",
          verify_status := 1, trace_probe_status := 2, primary_status := 0,
          mirror_status := 0, defer_status := 3, flush_status := 0 }
        { verify := false, expand := false, record := true, clean := false }
        "id" (some "orig") "bob" 3 "relay" "5.1.1" 11 "why").1 = -1 ∧
    (vbounce_append
        { soft_bounce := true, bounce_service := "bounce",
          defer_service := "defer", trace_service := "trace",
          verify_status := 1, trace_probe_status := 2, primary_status := 0,
          mirror_status := 0, defer_status := 3, flush_status := 0 }
        { verify := false, expand := false, record := true, clean := false }
        "id" (some "orig") "bob" 3 "relay" "5.1.1" 11 "why").2.filter
      Effect.isLogAdhoc =
      [Effect.logAdhoc "id" ((some "orig").getD "") "bob" "relay"
        (setClass4 (sanitizeDsn "bounce_append" "5.1.1").1) 11 "SOFTBOUNCE"
        "why"] :=
  c7_softbounce_success_defers _ _ "id" (some "orig") "bob" 3 "relay" "5.1.1"
    11 "why" rfl rfl rfl rfl rfl (fun _ => rfl)



theorem bounce_append_normal_primary_fail (env : Env) (flags : Flags)
    (id : String) (orig_rcpt : Option String) (recipient : String)
    (offset : Int) (relay dsn : String) (entry : Int) (why : String)
    (hp : env.primary_status ≠ 0) :
    (flags.clean = false →
      (bounce_append_normal env flags id orig_rcpt recipient offset relay dsn
          entry why).1 = env.defer_status ∧
      (bounce_append_normal env flags id orig_rcpt recipient offset relay dsn
          entry why).2.filter Effect.isDefer =
        [Effect.deferAppend flags id (orig_rcpt.getD "") recipient offset
          relay (setClass4 dsn) entry
          (env.bounce_service ++ " or " ++ env.trace_service ++
            " service failure")]) ∧
    (flags.clean = true →
      (bounce_append_normal env flags id orig_rcpt recipient offset relay dsn
          entry why).1 = -1 ∧
      (bounce_append_normal env flags id orig_rcpt recipient offset relay dsn
          entry why).2.filter Effect.isDefer = []) := by
  have hps : (env.primary_status == 0) = false := by simpa using hp
  unfold bounce_append_normal
  constructor <;> intro hc <;>
    cases hsoft : env.soft_bounce <;>
      simp [hps, hc, hsoft, Effect.isDefer, setClass4_idem]

theorem bounce_one_normal_primary_fail (env : Env) (flags : Flags)
    (queue id encoding sender : String) (orig_rcpt : Option String)
    (recipient : String) (offset : Int) (relay dsn : String) (entry : Int)
    (why : String) (hp : env.primary_status ≠ 0) :
    (flags.clean = false →
      (bounce_one_normal env flags queue id encoding sender orig_rcpt
          recipient offset relay dsn entry why).1 = env.defer_status ∧
      (bounce_one_normal env flags queue id encoding sender orig_rcpt
          recipient offset relay dsn entry why).2.filter Effect.isDefer =
        [Effect.deferAppend flags id (orig_rcpt.getD "") recipient offset
          relay (setClass4 dsn) entry
          (env.bounce_service ++ " or " ++ env.trace_service ++
            " service failure")]) ∧
    (flags.clean = true →
      (bounce_one_normal env flags queue id encoding sender orig_rcpt
          recipient offset relay dsn entry why).1 = -1 ∧
      (bounce_one_normal env flags queue id encoding sender orig_rcpt
          recipient offset relay dsn entry why).2.filter Effect.isDefer =
        []) := by
  have hps : (env.primary_status == 0) = false := by simpa using hp
  unfold bounce_one_normal
  constructor <;> intro hc <;>
    cases hsoft : env.soft_bounce <;>
      simp [hps, hc, hsoft, Effect.isDefer, setClass4_idem]



/-- C8: whenever the primary action of the Append Path or of the One-Shot
Path fails, if CLEAN is unset the defer store is invoked with the DSN class
digit forced to `4` and the synthetic service-failure reason, and the call
returns exactly the status of the defer append; if CLEAN is set, no defer append
occurs and the call returns failure. -/
theorem c8_defer_fallback (env : Env) (flags : Flags)
    (queue id encoding sender : String) (orig_rcpt : Option String)
    (recipient : String) (offset : Int) (relay d : String) (entry : Int)
    (why : String) (hv : flags.verify = false) (he : flags.expand = false)
    (hp : env.primary_status ≠ 0) :
    (flags.clean = false →
      (vbounce_append env flags id orig_rcpt recipient offset relay d entry
          why).1 = env.defer_status ∧
      (vbounce_append env flags id orig_rcpt recipient offset relay d entry
          why).2.filter Effect.isDefer =
        [Effect.deferAppend flags id (orig_rcpt.getD "") recipient offset
          relay (setClass4 (sanitizeDsn "bounce_append" d).1) entry
          (env.bounce_service ++ " or " ++ env.trace_service ++
            " service failure")]) ∧
    (flags.clean = true →
      (vbounce_append env flags id orig_rcpt recipient offset relay d entry
          why).1 = -1 ∧
      (vbounce_append env flags id orig_rcpt recipient offset relay d entry
          why).2.filter Effect.isDefer = []) ∧
    (flags.clean = false →
      (vbounce_one env flags queue id encoding sender orig_rcpt recipient
          offset relay d entry why).1 = env.defer_status ∧
      (vbounce_one env flags queue id encoding sender orig_rcpt recipient
          offset relay d entry why).2.filter Effect.isDefer =
        [Effect.deferAppend flags id (orig_rcpt.getD "") recipient offset
          relay (setClass4 (sanitizeDsn "bounce_one" d).1) entry
          (env.bounce_service ++ " or " ++ env.trace_service ++
            " service failure")]) ∧
    (flags.clean = true →
      (vbounce_one env flags queue id encoding sender orig_rcpt recipient
          offset relay d entry why).1 = -1 ∧
      (vbounce_one env flags queue id encoding sender orig_rcpt recipient
          offset relay d entry why).2.filter Effect.isDefer = []) := by
  refine ⟨?_, ?_, ?_, ?_⟩
  · intro hc
    rw [vbounce_append_normal_case env flags id orig_rcpt recipient offset
      relay d entry why hv he (by simp [hc])]
    obtain ⟨h1, h2⟩ := (bounce_append_normal_primary_fail env flags id
      orig_rcpt recipient offset relay (sanitizeDsn "bounce_append" d).1
      entry why hp).1 hc
    refine ⟨h1, ?_⟩
    show ((sanitizeDsn "bounce_append" d).2 ++ _).filter Effect.isDefer = _
    rw [List.filter_append, sanitizeDsn_snd_filter _ _ _ (fun _ => rfl),
      List.nil_append, h2]
  · intro hc
    cases hsoft : env.soft_bounce
    · rw [vbounce_append_normal_case env flags id orig_rcpt recipient offset
        relay d entry why hv he (by simp [hsoft])]
      obtain ⟨h1, h2⟩ := (bounce_append_normal_primary_fail env flags id
        orig_rcpt recipient offset relay (sanitizeDsn "bounce_append" d).1
        entry why hp).2 hc
      refine ⟨h1, ?_⟩
      show ((sanitizeDsn "bounce_append" d).2 ++ _).filter Effect.isDefer = _
      rw [List.filter_append, sanitizeDsn_snd_filter _ _ _ (fun _ => rfl),
        List.nil_append, h2]
    · rw [vbounce_append_shortcircuit env flags id orig_rcpt recipient offset
        relay d entry why hv he hsoft hc]
      exact ⟨rfl, sanitizeDsn_snd_filter _ _ _ (fun _ => rfl)⟩
  · intro hc
    cases hsoft : env.soft_bounce
    · rw [vbounce_one_normal_case env flags queue id encoding sender orig_rcpt
        recipient offset relay d entry why hv he hsoft]
      obtain ⟨h1, h2⟩ := (bounce_one_normal_primary_fail env flags queue id
        encoding sender orig_rcpt recipient offset relay
        (sanitizeDsn "bounce_one" d).1 entry why hp).1 hc
      refine ⟨h1, ?_⟩
      show ((sanitizeDsn "bounce_one" d).2 ++ _).filter Effect.isDefer = _
      rw [List.filter_append, sanitizeDsn_snd_filter _ _ _ (fun _ => rfl),
        List.nil_append, h2]
    · rw [vbounce_one_soft_case env flags queue id encoding sender orig_rcpt
        recipient offset relay d entry why hv he hsoft]
      rw [vbounce_append_normal_case env flags id orig_rcpt recipient offset
        relay (sanitizeDsn "bounce_one" d).1 entry why hv he (by simp [hc])]
      rw [sanitizeDsn_idem "bounce_append" "bounce_one" d]
      obtain ⟨h1, h2⟩ := (bounce_append_normal_primary_fail env flags id
        orig_rcpt recipient offset relay (sanitizeDsn "bounce_one" d).1
        entry why hp).1 hc
      refine ⟨h1, ?_⟩
      show ((sanitizeDsn "bounce_one" d).2 ++ ([] ++ _)).filter
        Effect.isDefer = _
      rw [List.filter_append, sanitizeDsn_snd_filter _ _ _ (fun _ => rfl),
        List.nil_append, List.nil_append, h2]
  · intro hc
    cases hsoft : env.soft_bounce
    · rw [vbounce_one_normal_case env flags queue id encoding sender orig_rcpt
        recipient offset relay d entry why hv he hsoft]
      obtain ⟨h1, h2⟩ := (bounce_one_normal_primary_fail env flags queue id
        encoding sender orig_rcpt recipient offset relay
        (sanitizeDsn "bounce_one" d).1 entry why hp).2 hc
      refine ⟨h1, ?_⟩
      show ((sanitizeDsn "bounce_one" d).2 ++ _).filter Effect.isDefer = _
      rw [List.filter_append, sanitizeDsn_snd_filter _ _ _ (fun _ => rfl),
        List.nil_append, h2]
    · rw [vbounce_one_soft_case env flags queue id encoding sender orig_rcpt
        recipient offset relay d entry why hv he hsoft]
      rw [vbounce_append_shortcircuit env flags id orig_rcpt recipient offset
        relay (sanitizeDsn "bounce_one" d).1 entry why hv he hsoft hc]
      rw [sanitizeDsn_idem "bounce_append" "bounce_one" d]
      refine ⟨rfl, ?_⟩
      show ((sanitizeDsn "bounce_one" d).2 ++ []).filter Effect.isDefer = _
      rw [List.append_nil, sanitizeDsn_snd_filter _ _ _ (fun _ => rfl)]

/-- Witness for C8 with a failing primary, soft-bounce disabled and CLEAN
unset. -/
theorem c8_witness :
    ((vbounce_append
        { soft_bounce := false, bounce_service := "bounce",
          defer_service := "defer", trace_service := "trace",
          verify_status := 1, trace_probe_status := 2, primary_status := 1,
          mirror_status := 0, defer_status := 3, flush_status := 0 }
        { verify := false, expand := false, record := false, clean := false }
        "id" (some "orig") "bob" 3 "relay" "5.1.1" 11 "why").1 = 3 ∧
     (vbounce_append
        { soft_bounce := false, bounce_service := "bounce",
          defer_service := "defer", trace_service := "trace",
          verify_status := 1, trace_probe_status := 2, primary_status := 1,
          mirror_status := 0, defer_status := 3, flush_status := 0 }
        { verify := false, expand := false, record := false, clean := false }
        "id" (some "orig") "bob" 3 "relay" "5.1.1" 11 "why").2.filter
      Effect.isDefer =
        [Effect.deferAppend
          { verify := false, expand := false, record := false, clean := false }
          "id" ((some "orig").getD "") "bob" 3 "relay"
          (setClass4 (sanitizeDsn "bounce_append" "5.1.1").1) 11
          ("bounce" ++ " or " ++ "trace" ++ " service failure")]) ∧
    ((vbounce_one
        { soft_bounce := false, bounce_service := "bounce",
          defer_service := "defer", trace_service := "trace",
          verify_status := 1, trace_probe_status := 2, primary_status := 1,
          mirror_status := 0, defer_status := 3, flush_status := 0 }
        { verify := false, expand := false, record := false, clean := false }
        "q" "id" "enc" "sender" (some "orig") "bob" 3 "relay" "5.1.1" 11
        "why").1 = 3 ∧
     (vbounce_one
        { soft_bounce := false, bounce_service := "bounce",
          defer_service := "defer", trace_service := "trace",
          verify_status := 1, trace_probe_status := 2, primary_status := 1,
          mirror_status := 0, defer_status := 3, flush_status := 0 }
        { verify := false, expand := false, record := false, clean := false }
        "q" "id" "enc" "sender" (some "orig") "bob" 3 "relay" "5.1.1" 11
        "why").2.filter Effect.isDefer =
        [Effect.deferAppend
          { verify := false, expand := false, record := false, clean := false }
          "id" ((some "orig").getD "") "bob" 3 "relay"
          (setClass4 (sanitizeDsn "bounce_one" "5.1.1").1) 11
          ("bounce" ++ " or " ++ "trace" ++ " service failure")]) :=
  ⟨(c8_defer_fallback _ _ "q" "id" "enc" "sender" (some "orig") "bob" 3
      "relay" "5.1.1" 11 "why" rfl rfl (by decide)).1 rfl,
   (c8_defer_fallback _ _ "q" "id" "enc" "sender" (some "orig") "bob" 3
      "relay" "5.1.1" 11 "why" rfl rfl (by decide)).2.2.1 rfl⟩



/-- C9: `bounce_flush` under soft-bounce mode returns failure without
issuing any request at all; with soft-bounce disabled and the flush request
failing it returns failure, and it emits the "deferred" diagnostic exactly
when CLEAN is unset. -/
theorem c9_flush_failure (env : Env) (flags : Flags)
    (queue id encoding sender : String) :
    (env.soft_bounce = true →
      bounce_flush env flags queue id encoding sender = (-1, [])) ∧
    (env.soft_bounce = false → env.flush_status ≠ 0 →
      (bounce_flush env flags queue id encoding sender).1 = -1 ∧
      ((bounce_flush env flags queue id encoding sender).2.any
          Effect.isMsgInfo = true ↔ flags.clean = false)) := by
  constructor
  · intro hs
    unfold bounce_flush
    simp [hs]
  · intro hs hf
    have hfs : (env.flush_status == 0) = false := by simpa using hf
    unfold bounce_flush
    cases hc : flags.clean <;> simp [hs, hfs, hc, Effect.isMsgInfo]

/-- Witness for C9: one soft-bounce call and one failing hard call. -/
theorem c9_witness :
    bounce_flush
        { soft_bounce := true, bounce_service := "bounce",
          defer_service := "defer", trace_service := "trace",
          verify_status := 1, trace_probe_status := 2, primary_status := 0,
          mirror_status := 0, defer_status := 3, flush_status := 0 }
        { verify := false, expand := false, record := false, clean := false }
        "q" "id" "enc" "sender" = (-1, []) ∧
    ((bounce_flush
        { soft_bounce := false, bounce_service := "bounce",
          defer_service := "defer", trace_service := "trace",
          verify_status := 1, trace_probe_status := 2, primary_status := 0,
          mirror_status := 0, defer_status := 3, flush_status := 1 }
        { verify := false, expand := false, record := false, clean := false }
        "q" "id" "enc" "sender").1 = -1 ∧
     ((bounce_flush
        { soft_bounce := false, bounce_service := "bounce",
          defer_service := "defer", trace_service := "trace",
          verify_status := 1, trace_probe_status := 2, primary_status := 0,
          mirror_status := 0, defer_status := 3, flush_status := 1 }
        { verify := false, expand := false, record := false, clean := false }
        "q" "id" "enc" "sender").2.any Effect.isMsgInfo = true ↔
       ({ verify := false, expand := false, record := false,
          clean := false } : Flags).clean = false)) :=
  ⟨(c9_flush_failure _ _ "q" "id" "enc" "sender").1 rfl,
   (c9_flush_failure _ _ "q" "id" "enc" "sender").2 rfl (by decide)⟩

/-- C10: in the immediate-send branch of `vbounce_one` (probe flags unset,
soft-bounce disabled) the soft-bounce rewrite guard is dead: the one-shot
request and any trace mirror carry exactly the sanitized class-`5` DSN and
action `failed`, and on full success the adhoc log status is `bounced` and
the returned status is `0`. -/
theorem c10_one_immediate_branch (env : Env) (flags : Flags)
    (queue id encoding sender : String) (orig_rcpt : Option String)
    (recipient : String) (offset : Int) (relay d : String) (entry : Int)
    (why : String) (hv : flags.verify = false) (he : flags.expand = false)
    (hs : env.soft_bounce = false) :
    (vbounce_one env flags queue id encoding sender orig_rcpt recipient
        offset relay d entry why).2.filter Effect.isCmdOne =
      [Effect.cmdOne env.bounce_service flags queue id encoding sender
        (orig_rcpt.getD "") recipient offset (sanitizeDsn "bounce_one" d).1
        "failed" why] ∧
    dsnClass5 (sanitizeDsn "bounce_one" d).1 = true ∧
    (vbounce_one env flags queue id encoding sender orig_rcpt recipient
        offset relay d entry why).2.filter Effect.isMirror =
      (if env.primary_status == 0 && flags.record then
        [Effect.traceMirror flags id (orig_rcpt.getD "") recipient relay
          (sanitizeDsn "bounce_one" d).1 entry "failed" why]
      else []) ∧
    (env.primary_status = 0 → (flags.record = true → env.mirror_status = 0) →
      (vbounce_one env flags queue id encoding sender orig_rcpt recipient
          offset relay d entry why).1 = 0 ∧
      (vbounce_one env flags queue id encoding sender orig_rcpt recipient
          offset relay d entry why).2.filter Effect.isLogAdhoc =
        [Effect.logAdhoc id (orig_rcpt.getD "") recipient relay
          (sanitizeDsn "bounce_one" d).1 entry "bounced" why]) := by
  rw [vbounce_one_normal_case env flags queue id encoding sender orig_rcpt
    recipient offset relay d entry why hv he hs]
  refine ⟨?_, sanitizeDsn_fst_class5 "bounce_one" d, ?_, ?_⟩
  · show ((sanitizeDsn "bounce_one" d).2 ++ _).filter Effect.isCmdOne = _
    rw [List.filter_append, sanitizeDsn_snd_filter _ _ _ (fun _ => rfl),
      List.nil_append]
    unfold bounce_one_normal
    cases h1 : (env.primary_status == 0 && flags.record) <;>
      cases h2 : (env.primary_status == 0 &&
        (!flags.record || env.mirror_status == 0)) <;>
        cases h3 : flags.clean <;>
          simp [hs, h1, h2, h3, Effect.isCmdOne]
  · show ((sanitizeDsn "bounce_one" d).2 ++ _).filter Effect.isMirror = _
    rw [List.filter_append, sanitizeDsn_snd_filter _ _ _ (fun _ => rfl),
      List.nil_append]
    unfold bounce_one_normal
    cases h1 : (env.primary_status == 0 && flags.record) <;>
      cases h2 : (env.primary_status == 0 &&
        (!flags.record || env.mirror_status == 0)) <;>
        cases h3 : flags.clean <;>
          simp [hs, h1, h2, h3, Effect.isMirror]
  · intro hp hm
    have hok : (env.primary_status == 0 &&
        (!flags.record || env.mirror_status == 0)) = true := by
      cases hr : flags.record
      · simp [hp]
      · simp [hp, hm hr]
    constructor
    · show (bounce_one_normal env flags queue id encoding sender orig_rcpt
        recipient offset relay (sanitizeDsn "bounce_one" d).1 entry why).1 = 0
      unfold bounce_one_normal
      simp [hok]
    · show ((sanitizeDsn "bounce_one" d).2 ++ _).filter Effect.isLogAdhoc = _
      rw [List.filter_append, sanitizeDsn_snd_filter _ _ _ (fun _ => rfl),
        List.nil_append]
      unfold bounce_one_normal
      cases h1 : (env.primary_status == 0 && flags.record) <;>
        simp [hs, h1, hok, Effect.isLogAdhoc]

/-- Witness for C10 with RECORD set and both services succeeding. -/
theorem c10_witness :
    (vbounce_one
        { soft_bounce := false, bounce_service := "bounce",
          defer_service := "defer", trace_service := "trace",
          verify_status := 1, trace_probe_status := 2, primary_status := 0,
          mirror_status := 0, defer_status := 3, flush_status := 0 }
        { verify := false, expand := false, record := true, clean := false }
        "q" "id" "enc" "sender" (some "orig") "bob" 3 "relay" "5.1.1" 11
        "why").2.filter Effect.isCmdOne =
      [Effect.cmdOne "bounce"
        { verify := false, expand := false, record := true, clean := false }
        "q" "id" "enc" "sender" ((some "orig").getD "") "bob" 3
        (sanitizeDsn "bounce_one" "5.1.1").1 "failed" "why"] ∧
    dsnClass5 (sanitizeDsn "bounce_one" "5.1.1").1 = true ∧
    (vbounce_one
        { soft_bounce := false, bounce_service := "bounce",
          defer_service := "defer", trace_service := "trace",
          verify_status := 1, trace_probe_status := 2, primary_status := 0,
          mirror_status := 0, defer_status := 3, flush_status := 0 }
        { verify := false, expand := false, record := true, clean := false }
        "q" "id" "enc" "sender" (some "orig") "bob" 3 "relay" "5.1.1" 11
        "why").2.filter Effect.isMirror =
      (if (0 : Int) == 0 &&
          ({ verify := false, expand := false, record := true,
             clean := false } : Flags).record then
        [Effect.traceMirror
          { verify := false, expand := false, record := true, clean := false }
          "id" ((some "orig").getD "") "bob" "relay"
          (sanitizeDsn "bounce_one" "5.1.1").1 11 "failed" "why"]
      else []) ∧
    ((0 : Int) = 0 →
      (({ verify := false, expand := false, record := true,
          clean := false } : Flags).record = true → (0 : Int) = 0) →
      (vbounce_one
          { soft_bounce := false, bounce_service := "bounce",
            defer_service := "defer", trace_service := "trace",
            verify_status := 1, trace_probe_status := 2, primary_status := 0,
            mirror_status := 0, defer_status := 3, flush_status := 0 }
          { verify := false, expand := false, record := true, clean := false }
          "q" "id" "enc" "sender" (some "orig") "bob" 3 "relay" "5.1.1" 11
          "why").1 = 0 ∧
      (vbounce_one
          { soft_bounce := false, bounce_service := "bounce",
            defer_service := "defer", trace_service := "trace",
            verify_status := 1, trace_probe_status := 2, primary_status := 0,
            mirror_status := 0, defer_status := 3, flush_status := 0 }
          { verify := false, expand := false, record := true, clean := false }
          "q" "id" "enc" "sender" (some "orig") "bob" 3 "relay" "5.1.1" 11
          "why").2.filter Effect.isLogAdhoc =
        [Effect.logAdhoc "id" ((some "orig").getD "") "bob" "relay"
          (sanitizeDsn "bounce_one" "5.1.1").1 11 "bounced" "why"]) :=
  c10_one_immediate_branch _ _ "q" "id" "enc" "sender" (some "orig") "bob" 3
    "relay" "5.1.1" 11 "why" rfl rfl rfl

end Bounce
